import Mathlib

/-!
Verification of the SolanaCalculator client (`src/client/calculator.ts`)
against its natural-language specification.

The client's pure core is shallowly embedded here:
* bytes are `Nat` values (< 256 for well-formed buffers), buffers are `List Nat`;
* the Borsh/BufferLayout unsigned 32-bit fields are little-endian, as in the
  JavaScript libraries the source uses;
* fallible operations return `Except ClientError`, with the error constructors
  named after the specification's error taxonomy (§7 of the spec);
* the external collaborators (RPC connection, account store, system program)
  are passed in explicitly as parameters: a store is a function from addresses
  to optional account byte buffers, rent computation is a function argument.
-/

namespace SolanaCalculator

/-- Error taxonomy of the specification (§7); each constructor labels the
distinct failure the client code raises at the corresponding program point. -/
inductive ClientError where
  | UnknownOperationError
  | MalformedStateError
  | AccountNotFoundError
  | InsufficientFundsError
  deriving DecidableEq, Repr

/-- Little-endian 4-byte encoding of an unsigned 32-bit integer, as written by
both `borsh.serialize` for a `u32` field and `BufferLayout.u32` (`calculator.ts`
lines 56, 184-185).  Out-of-range values are reduced mod 2^32 byte-wise. -/
def u32LE (n : Nat) : List Nat :=
  [n % 256, n / 256 % 256, n / 65536 % 256, n / 16777216 % 256]

/-- Little-endian read of four bytes as an unsigned 32-bit integer, as
performed by `borsh.deserialize` on a `u32` field. -/
def readU32LE (b0 b1 b2 b3 : Nat) : Nat :=
  b0 + 256 * b1 + 65536 * b2 + 16777216 * b3

/-- One-byte encoding of a `u8` field, as written by `BufferLayout.u8`
(`calculator.ts` line 183). -/
def u8Encode (n : Nat) : List Nat := [n % 256]

/-- The state of a calculator account (`class Calculator`, `calculator.ts`
lines 45-52): a single unsigned 32-bit `result` field. -/
structure Calculator where
  result : Nat
  deriving DecidableEq, Repr

/-- `new Calculator()` with no constructor argument: the class initializer
sets `result = 0` (`calculator.ts` line 46). -/
def Calculator.new : Calculator := ⟨0⟩

/-- `borsh.serialize(CalculatorSchema, c)`: the schema declares a single
`u32` field `result` (`calculator.ts` lines 55-57), so the encoding is its
4 little-endian bytes. -/
def encodeState (c : Calculator) : List Nat := u32LE c.result

/-- `borsh.deserialize(CalculatorSchema, Calculator, bytes)` (`calculator.ts`
line 224): reads one little-endian `u32`; the Borsh reader fails if fewer than
4 bytes are available and fails if bytes remain after the field is read, so it
succeeds exactly on 4-byte buffers.  Both failures are the specification's
`MalformedStateError`. -/
def decodeState (bytes : List Nat) : Except ClientError Calculator :=
  match bytes with
  | [b0, b1, b2, b3] => .ok ⟨readU32LE b0 b1 b2 b3⟩
  | _ => .error .MalformedStateError

/-- `CALCULATOR_SIZE` (`calculator.ts` lines 60-63): the length of the Borsh
serialization of a zero-valued `Calculator`. -/
def CALCULATOR_SIZE : Nat := (encodeState Calculator.new).length

/-- `createInstruction(operation, num1, num2)` (`calculator.ts` lines 172-191):
a `BufferLayout.struct` of one `u8` opcode byte — `operation === "add" ? 0 : 1`
— followed by two little-endian `u32` operands, written into a buffer of the
layout's 9-byte span.  The encoder itself never rejects an operation name. -/
def createInstruction (operation : String) (num1 num2 : Nat) : List Nat :=
  u8Encode (if operation = "add" then 0 else 1) ++ u32LE num1 ++ u32LE num2

/-- `instructionMap` (`calculator.ts` lines 193-196): a record with exactly the
keys `"add"` and `"sub"`; indexing with any other string yields `undefined`,
modelled as `none`. -/
def instructionMap (op : String) : Option (Nat → Nat → List Nat) :=
  if op = "add" then some (fun num1 num2 => createInstruction "add" num1 num2)
  else if op = "sub" then some (fun num1 num2 => createInstruction "sub" num1 num2)
  else none

/-- `calculate(operation, num1, num2)` (`calculator.ts` lines 199-212): looks
`operation` up in `instructionMap`; on a miss the source calls `undefined` as a
function and throws before `createInstruction` runs and before any transaction
is built or sent — modelled as `UnknownOperationError`.  On a hit the handler's
payload is submitted; the returned list collects the payloads of the network
submissions the call issues (empty on the error path, since `Except.error`
short-circuits before `sendAndConfirmTransaction`). -/
def calculate (operation : String) (num1 num2 : Nat) :
    Except ClientError (List (List Nat)) :=
  match instructionMap operation with
  | some handler => .ok [handler num1 num2]
  | none => .error .UnknownOperationError

/-- Modelled from the spec: the repository ships no request decoder (§8 calls
it the `decodeRequest`-equivalent); per the request layout of §4.2 it reads
1 opcode byte, then two little-endian unsigned 32-bit operands, from a 9-byte
buffer. -/
def decodeRequest (bytes : List Nat) : Option (Nat × Nat × Nat) :=
  match bytes with
  | [op, a0, a1, a2, a3, b0, b1, b2, b3] =>
      some (op, readU32LE a0 a1 a2 a3, readU32LE b0 b1 b2 b3)
  | _ => none

/-- `displayResult`'s read of the account (`calculator.ts` lines 215-229):
`getAccountInfo` returning `null` (absent account) raises the specification's
`AccountNotFoundError` (`throw "Error: cannot find the calculator account"`,
line 222); otherwise the fetched bytes are decoded with the state codec and
any decoding failure propagates unchanged (no catch).  The function is pure in
this model: it only observes the store snapshot passed in. -/
def displayResult (accountInfo : Option (List Nat)) : Except ClientError Calculator :=
  match accountInfo with
  | none => .error .AccountNotFoundError
  | some data => decodeState data

/-- Account addresses and identities, as byte strings. -/
abbrev Address := List Nat

/-- A snapshot of the external account store: `getAccountInfo` returns the
account's data bytes when an account exists at the address, `null` otherwise. -/
abbrev Store := Address → Option (List Nat)

/-- The byte content of a string (UTF-16 code units coincide with bytes for
the ASCII literals used here), as concatenated into the address preimage. -/
def strBytes (s : String) : List Nat := s.data.map Char.toNat

/-- `CALCULATOR_SEED` (`calculator.ts` line 137). -/
def CALCULATOR_SEED : String := "IamTheCalculator"

/-- Modelled from the spec: `PublicKey.createWithSeed` (`calculator.ts` lines
138-142) is external library code — per §4.1 a pure, deterministic,
collision-resistant hash over the concatenation of base identity, seed and
program identity.  It is modelled by the concatenated preimage itself, which
realizes exactly the properties the spec postulates of the hash: determinism,
and (collision resistance, taken as given) distinct inputs giving distinct
addresses.  Identities are fixed-length (32-byte) public keys. -/
def derive (base : List Nat) (seed : String) (program : List Nat) : Address :=
  base ++ strBytes seed ++ program

/-- Parameters of one `SystemProgram.createAccountWithSeed` submission
(`calculator.ts` lines 157-168): the seed, the requested account size, the
size whose rent-exemption minimum was queried (line 154-156), and the funding
lamports. -/
structure CreateSubmission where
  seed : String
  space : Nat
  rentSize : Nat
  lamports : Nat
  deriving DecidableEq, Repr

/-- Pointwise update of a store snapshot at one address. -/
def updateStore (s : Store) (k : Address) (v : List Nat) : Store :=
  fun a => if a = k then some v else s a

/-- The calculator-account provisioning step of `checkProgram`
(`calculator.ts` lines 144-169): query the store at the derived calculator
address; if an account is present do nothing; if absent, query the
rent-exemption minimum for `CALCULATOR_SIZE` and submit one
`createAccountWithSeed` with `space = CALCULATOR_SIZE` and that funding.
The external system program zero-fills a newly created account's
`space` bytes (spec §3: "initial bytes are zero-filled by the store").
Returns the resulting store snapshot and the list of creation submissions
issued. -/
def ensureProvisioned (rent : Nat → Nat) (calcAddr : Address) (s : Store) :
    Store × List CreateSubmission :=
  match s calcAddr with
  | some _ => (s, [])
  | none =>
      (updateStore s calcAddr (List.replicate CALCULATOR_SIZE 0),
       [{ seed := CALCULATOR_SEED, space := CALCULATOR_SIZE,
          rentSize := CALCULATOR_SIZE, lamports := rent CALCULATOR_SIZE }])

/-- `establishPayer` (`calculator.ts` lines 74-106), on a fresh payer: fees
are the rent-exemption minimum for `CALCULATOR_SIZE` plus
`lamportsPerSignature * 100`; if the payer's balance is below the fees, an
airdrop of the shortfall is requested and confirmed and the balance re-read
(`balanceAfterAirdrop`, an external observation).  The function then logs and
returns; the source has no check of the re-read balance, so no path raises
`InsufficientFundsError`.  Returns the final observed balance and the list of
airdrop amounts requested. -/
def establishPayer (rentExemption lamportsPerSignature balance0 balanceAfterAirdrop : Nat) :
    Except ClientError (Nat × List Nat) :=
  let fees := rentExemption + lamportsPerSignature * 100
  if balance0 < fees then .ok (balanceAfterAirdrop, [fees - balance0])
  else .ok (balance0, [])

/-! ## Helper lemmas -/

/-- Reading back the four little-endian bytes of an in-range unsigned 32-bit
integer recovers the integer. -/
theorem readU32LE_u32LE (n : Nat) (h : n < 4294967296) :
    readU32LE (n % 256) (n / 256 % 256) (n / 65536 % 256) (n / 16777216 % 256) = n := by
  unfold readU32LE
  omega

/-- A list of length four is a four-element literal. -/
theorem list_length_four (l : List Nat) (h : l.length = 4) :
    ∃ a b c d, l = [a, b, c, d] := by
  rcases l with _ | ⟨a, l⟩
  · simp at h
  rcases l with _ | ⟨b, l⟩
  · simp at h
  rcases l with _ | ⟨c, l⟩
  · simp at h
  rcases l with _ | ⟨d, l⟩
  · simp at h
  rcases l with _ | ⟨e, l⟩
  · exact ⟨a, b, c, d, rfl⟩
  · simp at h

/-- Distinct strings have distinct byte contents. -/
theorem strBytes_injective : Function.Injective strBytes := by
  intro a b h
  simp only [strBytes] at h
  have hd : a.data = b.data :=
    List.map_injective_iff.mpr (fun c1 c2 hc => Char.ext (UInt32.ext hc)) h
  cases a
  cases b
  subst hd
  rfl

/-! ## Claim theorems -/

/-- C1: for every operation name not in the opcode table, the dispatch fails
with UnknownOperationError and issues no network submission: the lookup in
instructionMap misses, and calculate returns the error before createInstruction
runs and before any transaction is built or sent — it never silently defaults
to an opcode. -/
theorem calculate_unknown_operation (operation : String) (num1 num2 : Nat)
    (h1 : operation ≠ "add") (h2 : operation ≠ "sub") :
    instructionMap operation = none ∧
    calculate operation num1 num2 = .error .UnknownOperationError := by
  have hmap : instructionMap operation = none := by
    simp [instructionMap, h1, h2]
  exact ⟨hmap, by simp [calculate, hmap]⟩

/-- Witness for C1 at the specification's example input: dispatching mul 1 1. -/
theorem calculate_unknown_operation_witness :
    instructionMap "mul" = none ∧
    calculate "mul" 1 1 = .error .UnknownOperationError :=
  calculate_unknown_operation "mul" 1 1 (by decide) (by decide)

/-- C2: the request encoder is total for in-range operands and produces exactly
9 bytes: one opcode byte (0 for add, 1 for sub) followed by four little-endian
bytes of operand1 and four little-endian bytes of operand2 (the byte groups are
characterized by decoding back to the operands). -/
theorem createInstruction_layout (operation : String) (num1 num2 : Nat)
    (h1 : num1 < 4294967296) (h2 : num2 < 4294967296) :
    (createInstruction operation num1 num2).length = 9 ∧
    ∃ a0 a1 a2 a3 b0 b1 b2 b3,
      createInstruction operation num1 num2 =
        (if operation = "add" then 0 else 1) :: [a0, a1, a2, a3, b0, b1, b2, b3] ∧
      readU32LE a0 a1 a2 a3 = num1 ∧ readU32LE b0 b1 b2 b3 = num2 := by
  refine ⟨by simp [createInstruction, u8Encode, u32LE],
    num1 % 256, num1 / 256 % 256, num1 / 65536 % 256, num1 / 16777216 % 256,
    num2 % 256, num2 / 256 % 256, num2 / 65536 % 256, num2 / 16777216 % 256,
    ?_, readU32LE_u32LE num1 h1, readU32LE_u32LE num2 h2⟩
  rcases eq_or_ne operation "add" with h | h <;>
    simp [createInstruction, u8Encode, u32LE, h]

/-- Witness for C2 at the operation add with operands 7 and 5. -/
theorem createInstruction_layout_witness :
    (createInstruction "add" 7 5).length = 9 ∧
    ∃ a0 a1 a2 a3 b0 b1 b2 b3,
      createInstruction "add" 7 5 =
        (if ("add" : String) = "add" then 0 else 1) :: [a0, a1, a2, a3, b0, b1, b2, b3] ∧
      readU32LE a0 a1 a2 a3 = 7 ∧ readU32LE b0 b1 b2 b3 = 5 :=
  createInstruction_layout "add" 7 5 (by decide) (by decide)

/-- C3: the codecs round-trip — decoding the state encoding of any unsigned
32-bit result recovers the record, and decoding the 9-byte request buffer of a
valid request recovers its opcode byte (0 for add, 1 for sub) and both
operands exactly. -/
theorem codec_round_trip (r num1 num2 : Nat) (operation : String)
    (hr : r < 4294967296) (h1 : num1 < 4294967296) (h2 : num2 < 4294967296)
    (hop : operation = "add" ∨ operation = "sub") :
    decodeState (encodeState ⟨r⟩) = .ok ⟨r⟩ ∧
    decodeRequest (createInstruction operation num1 num2) =
      some (if operation = "add" then 0 else 1, num1, num2) := by
  constructor
  · show decodeState (u32LE r) = .ok ⟨r⟩
    simp [u32LE, decodeState, readU32LE_u32LE r hr]
  · rcases hop with h | h <;> subst h <;>
      simp [createInstruction, u8Encode, u32LE, decodeRequest,
        readU32LE_u32LE num1 h1, readU32LE_u32LE num2 h2]

/-- Witness for C3: state result 12, and the request sub 7 5. -/
theorem codec_round_trip_witness :
    decodeState (encodeState ⟨12⟩) = .ok ⟨12⟩ ∧
    decodeRequest (createInstruction "sub" 7 5) =
      some (if ("sub" : String) = "add" then 0 else 1, 7, 5) :=
  codec_round_trip 12 7 5 "sub" (by decide) (by decide) (by decide) (Or.inr rfl)

/-- C4: decodeState succeeds exactly on 4-byte inputs — every buffer of a
different length fails with MalformedStateError, every 4-byte buffer decodes to
a state record, and the zero-filled 4-byte buffer a freshly provisioned account
holds decodes to result 0. -/
theorem decodeState_length_exact (bytesBad bytes4 : List Nat)
    (hbad : bytesBad.length ≠ 4) (h4 : bytes4.length = 4) :
    decodeState bytesBad = .error .MalformedStateError ∧
    (∃ c, decodeState bytes4 = .ok c) ∧
    decodeState (List.replicate 4 0) = .ok ⟨0⟩ := by
  refine ⟨?_, ?_, rfl⟩
  · rcases bytesBad with _ | ⟨a, l⟩
    · rfl
    rcases l with _ | ⟨b, l⟩
    · rfl
    rcases l with _ | ⟨c, l⟩
    · rfl
    rcases l with _ | ⟨d, l⟩
    · rfl
    rcases l with _ | ⟨e, l⟩
    · exact absurd rfl hbad
    · rfl
  · obtain ⟨a, b, c, d, rfl⟩ := list_length_four bytes4 h4
    exact ⟨_, rfl⟩

/-- Witness for C4: a 3-byte buffer is rejected and the buffer 1 2 3 4 decodes. -/
theorem decodeState_length_exact_witness :
    decodeState [0, 0, 0] = .error .MalformedStateError ∧
    (∃ c, decodeState [1, 2, 3, 4] = .ok c) ∧
    decodeState (List.replicate 4 0) = .ok ⟨0⟩ :=
  decodeState_length_exact [0, 0, 0] [1, 2, 3, 4] (by decide) (by decide)

/-- C5: the encoded length of the zero-valued state record is exactly 4 bytes,
CALCULATOR_SIZE equals it, and every account-creation submission issued by the
provisioning step uses this same constant both as the size whose rent-exemption
minimum is queried and as the space of the created account. -/
theorem calculatorSize_invariant (rent : Nat → Nat) (calcAddr : Address)
    (s : Store) (sub : CreateSubmission)
    (hmem : sub ∈ (ensureProvisioned rent calcAddr s).2) :
    (encodeState ⟨0⟩).length = 4 ∧ CALCULATOR_SIZE = 4 ∧
    sub.space = CALCULATOR_SIZE ∧ sub.rentSize = CALCULATOR_SIZE ∧
    sub.lamports = rent CALCULATOR_SIZE := by
  refine ⟨rfl, rfl, ?_⟩
  unfold ensureProvisioned at hmem
  cases hcase : s calcAddr with
  | some a =>
      rw [hcase] at hmem
      simp at hmem
  | none =>
      rw [hcase] at hmem
      simp at hmem
      subst hmem
      exact ⟨rfl, rfl, rfl⟩

/-- Witness for C5: a store with no account at the derived address, rent
computed as ten lamports per byte. -/
theorem calculatorSize_invariant_witness :
    (encodeState ⟨0⟩).length = 4 ∧ CALCULATOR_SIZE = 4 ∧
    CreateSubmission.space
        { seed := CALCULATOR_SEED, space := 4, rentSize := 4, lamports := 40 } =
      CALCULATOR_SIZE ∧
    CreateSubmission.rentSize
        { seed := CALCULATOR_SEED, space := 4, rentSize := 4, lamports := 40 } =
      CALCULATOR_SIZE ∧
    CreateSubmission.lamports
        { seed := CALCULATOR_SEED, space := 4, rentSize := 4, lamports := 40 } =
      (fun n => n * 10) CALCULATOR_SIZE :=
  calculatorSize_invariant (fun n => n * 10) [1] (fun _ => none)
    { seed := CALCULATOR_SEED, space := 4, rentSize := 4, lamports := 40 } (by decide)

/-- C6: provisioning is idempotent — on a store already holding an account at
the derived address it submits no creation and returns the store unchanged,
and running it twice from a store with no account there issues exactly one
account-creation submission and leaves an account whose bytes decode to
result 0. -/
theorem ensureProvisioned_idempotent (rent : Nat → Nat) (calcAddr : Address)
    (sPresent sAbsent : Store) (acct : List Nat)
    (hp : sPresent calcAddr = some acct)
    (ha : sAbsent calcAddr = none) :
    ensureProvisioned rent calcAddr sPresent = (sPresent, []) ∧
    (ensureProvisioned rent calcAddr sAbsent).2.length +
      (ensureProvisioned rent calcAddr
        (ensureProvisioned rent calcAddr sAbsent).1).2.length = 1 ∧
    ∃ d,
      (ensureProvisioned rent calcAddr
        (ensureProvisioned rent calcAddr sAbsent).1).1 calcAddr = some d ∧
      decodeState d = .ok ⟨0⟩ := by
  have h1 : ensureProvisioned rent calcAddr sAbsent =
      (updateStore sAbsent calcAddr (List.replicate CALCULATOR_SIZE 0),
       [{ seed := CALCULATOR_SEED, space := CALCULATOR_SIZE,
          rentSize := CALCULATOR_SIZE, lamports := rent CALCULATOR_SIZE }]) := by
    simp [ensureProvisioned, ha]
  have hupd : updateStore sAbsent calcAddr (List.replicate CALCULATOR_SIZE 0) calcAddr =
      some (List.replicate CALCULATOR_SIZE 0) := by
    simp [updateStore]
  refine ⟨by simp [ensureProvisioned, hp], ?_, ?_⟩
  · rw [h1]
    simp [ensureProvisioned, hupd]
  · rw [h1]
    refine ⟨List.replicate CALCULATOR_SIZE 0, ?_, rfl⟩
    simp only [ensureProvisioned, hupd]

/-- Witness for C6: a store holding a zero account at every address, and the
empty store, with the derived address taken as the one-byte address 1. -/
theorem ensureProvisioned_idempotent_witness :
    ensureProvisioned (fun n => n * 10) [1] (fun _ => some (List.replicate 4 0)) =
      ((fun _ => some (List.replicate 4 0) : Store), []) ∧
    (ensureProvisioned (fun n => n * 10) [1] (fun _ => none)).2.length +
      (ensureProvisioned (fun n => n * 10) [1]
        (ensureProvisioned (fun n => n * 10) [1] (fun _ => none)).1).2.length = 1 ∧
    ∃ d,
      (ensureProvisioned (fun n => n * 10) [1]
        (ensureProvisioned (fun n => n * 10) [1] (fun _ => none)).1).1 [1] = some d ∧
      decodeState d = .ok ⟨0⟩ :=
  ensureProvisioned_idempotent (fun n => n * 10) [1]
    (fun _ => some (List.replicate 4 0)) (fun _ => none) (List.replicate 4 0) rfl rfl

/-- C7: address derivation is deterministic — identical base identity, seed
and program identity give the identical address — and input-sensitive:
changing the base identity, the seed, or the program identity alone changes
the derived address. -/
theorem derive_deterministic (b b1 b2 p p1 p2 : List Nat) (s s1 s2 : String)
    (hbne : b1 ≠ b2) (hsne : s1 ≠ s2) (hpne : p1 ≠ p2) :
    derive b s p = derive b s p ∧
    derive b1 s p ≠ derive b2 s p ∧
    derive b s1 p ≠ derive b s2 p ∧
    derive b s p1 ≠ derive b s p2 := by
  refine ⟨rfl, ?_, ?_, ?_⟩
  · intro h
    simp only [derive] at h
    have h2 := List.append_cancel_right h
    exact hbne (List.append_cancel_right h2)
  · intro h
    simp only [derive] at h
    have h2 := List.append_cancel_right h
    have h3 := List.append_cancel_left h2
    exact hsne (strBytes_injective h3)
  · intro h
    simp only [derive] at h
    exact hpne (List.append_cancel_left h)

/-- Witness for C7 at concrete 32-byte identities and the calculator seed. -/
theorem derive_deterministic_witness :
    derive (List.replicate 32 2) CALCULATOR_SEED (List.replicate 32 3) =
      derive (List.replicate 32 2) CALCULATOR_SEED (List.replicate 32 3) ∧
    derive (List.replicate 32 0) CALCULATOR_SEED (List.replicate 32 3) ≠
      derive (1 :: List.replicate 31 0) CALCULATOR_SEED (List.replicate 32 3) ∧
    derive (List.replicate 32 2) "IamTheCalculator" (List.replicate 32 3) ≠
      derive (List.replicate 32 2) "x" (List.replicate 32 3) ∧
    derive (List.replicate 32 2) CALCULATOR_SEED [0] ≠
      derive (List.replicate 32 2) CALCULATOR_SEED [1] :=
  derive_deterministic (List.replicate 32 2) (List.replicate 32 0)
    (1 :: List.replicate 31 0) (List.replicate 32 3) [0] [1]
    CALCULATOR_SEED "IamTheCalculator" "x"
    (by decide) (by decide) (by decide)

/-- C8 counterexample: with a rent-exemption minimum of 4 lamports and a
1-lamport signature fee the computed fees are 104; a payer balance of 0
triggers an airdrop request for 104, and when the re-read balance is still 0
(below the fees), establishPayer nevertheless returns successfully — there is
no InsufficientFundsError path in the code. -/
theorem establishPayer_counterexample :
    0 < 4 + 1 * 100 ∧
    establishPayer 4 1 0 0 = .ok (0, [104]) ∧
    establishPayer 4 1 0 0 ≠ .error .InsufficientFundsError :=
  ⟨by decide, rfl, fun h => Except.noConfusion h⟩

/-- C8 as amended: when the payer's balance is below the computed fees,
establishPayer requests one airdrop for the exact shortfall and then returns
successfully with the re-read balance, whatever that balance is — even when it
is still below the fees; when the balance already covers the fees it returns
successfully with no airdrop. -/
theorem establishPayer_airdrop_then_proceeds
    (rentExemption lamportsPerSignature balance0 balanceAfterAirdrop bRich : Nat)
    (hlow : balance0 < rentExemption + lamportsPerSignature * 100)
    (hhigh : rentExemption + lamportsPerSignature * 100 ≤ bRich) :
    establishPayer rentExemption lamportsPerSignature balance0 balanceAfterAirdrop =
      .ok (balanceAfterAirdrop,
        [rentExemption + lamportsPerSignature * 100 - balance0]) ∧
    establishPayer rentExemption lamportsPerSignature bRich balanceAfterAirdrop =
      .ok (bRich, []) := by
  constructor
  · simp [establishPayer, hlow]
  · simp [establishPayer, Nat.not_lt.mpr hhigh]

/-- Witness for the amended C8: fees 104, a poor payer with balance 0 whose
airdropped balance reads back 0, and a rich payer with balance 200. -/
theorem establishPayer_airdrop_then_proceeds_witness :
    establishPayer 4 1 0 0 = .ok (0, [4 + 1 * 100 - 0]) ∧
    establishPayer 4 1 200 0 = .ok (200, []) :=
  establishPayer_airdrop_then_proceeds 4 1 0 0 200 (by decide) (by decide)

/-- C9: the result reader fails with AccountNotFoundError when the store has
no account at the derived address, decodes the fetched bytes with the state
codec when one is present, and propagates MalformedStateError unchanged; it is
a pure observation of the store snapshot (no side effects). -/
theorem displayResult_reader (badData : List Nat)
    (hbad : decodeState badData = .error .MalformedStateError) :
    displayResult none = .error .AccountNotFoundError ∧
    (∀ d, displayResult (some d) = decodeState d) ∧
    displayResult (some badData) = .error .MalformedStateError :=
  ⟨rfl, fun _ => rfl, hbad⟩

/-- Witness for C9 with the empty buffer as the malformed account data. -/
theorem displayResult_reader_witness :
    displayResult none = .error .AccountNotFoundError ∧
    (∀ d, displayResult (some d) = decodeState d) ∧
    displayResult (some []) = .error .MalformedStateError :=
  displayResult_reader [] rfl

/-- C10: inside the request encoder the opcode byte is 0 exactly when the
operation string is add and 1 for every other string (sub and unrecognized
names alike), and the encoder is total — every operation name yields a 9-byte
buffer — so the fail-fast guard against unknown operations lives entirely in
the instructionMap lookup, which is populated exactly at add and sub. -/
theorem createInstruction_opcode_default (operation : String) (num1 num2 : Nat) :
    (createInstruction operation num1 num2).head? =
      some (if operation = "add" then 0 else 1) ∧
    ((createInstruction operation num1 num2).head? = some 0 ↔ operation = "add") ∧
    (createInstruction "mul" num1 num2).head? = some 1 ∧
    (createInstruction operation num1 num2).length = 9 ∧
    ((instructionMap operation).isSome ↔ (operation = "add" ∨ operation = "sub")) := by
  refine ⟨?_, ?_, rfl, by simp [createInstruction, u8Encode, u32LE], ?_⟩
  · rcases eq_or_ne operation "add" with h | h <;>
      simp [createInstruction, u8Encode, h]
  · rcases eq_or_ne operation "add" with h | h <;>
      simp [createInstruction, u8Encode, h]
  · rcases eq_or_ne operation "add" with h | h
    · simp [instructionMap, h]
    rcases eq_or_ne operation "sub" with h2 | h2 <;>
      simp [instructionMap, h, h2]

end SolanaCalculator
